import Mathlib

/-!
# Verification of the Songs REST API service (`backend/routes.py`)

Shallow embedding of the Flask + pymongo request handlers of the songs
service.  Documents are association lists from field names to dynamically
typed values; the document store is a list of documents in insertion
("natural") order.  Store operations (`find_one`, `insert_one`,
`delete_one`, `find_one_and_update`, `count_documents`) are modelled per
MongoDB semantics as the handlers use them.  Store failures are modelled
by a fault schedule `f : Nat → Bool`: the `i`-th store call executed by a
handler raises iff `f i`; an exception the handler does not catch
surfaces as `Except.error`.
-/

namespace Songs

/-- A dynamically typed BSON/JSON value. `vOid` is a MongoDB ObjectId
(the store's native primary key) holding its 24-character hex form. -/
inductive Value where
  | vNull
  | vBool (b : Bool)
  | vInt (n : Int)
  | vStr (s : String)
  | vOid (h : String)
  | vArr (xs : List Value)
  | vObj (fields : List (String × Value))

/-- A document: an ordered association list of fields. -/
abbrev Doc := List (String × Value)

/-- The collection: documents in insertion order. -/
abbrev DB := List Doc

/-- `true` iff the value is a plain string. -/
def Value.isStr : Value → Bool
  | .vStr _ => true
  | _ => false

/-- First binding of field `k` in a document (Python `doc[k]` / Mongo field access). -/
def getField (d : Doc) (k : String) : Option Value :=
  match d.find? (fun kv => kv.1 == k) with
  | some kv => some kv.2
  | none => none

mutual
/-- Structural (type-sensitive) BSON value equality, as Mongo's equality
match uses on `id` and `_id` filters: an int never equals a string. -/
def beqVal : Value → Value → Bool
  | .vNull, .vNull => true
  | .vBool a, .vBool b => a == b
  | .vInt a, .vInt b => a == b
  | .vStr a, .vStr b => a == b
  | .vOid a, .vOid b => a == b
  | .vArr a, .vArr b => beqArr a b
  | .vObj a, .vObj b => beqFields a b
  | _, _ => false

def beqArr : List Value → List Value → Bool
  | [], [] => true
  | x :: xs, y :: ys => beqVal x y && beqArr xs ys
  | _, _ => false

def beqFields : List (String × Value) → List (String × Value) → Bool
  | [], [] => true
  | (k1, v1) :: xs, (k2, v2) :: ys => k1 == k2 && (beqVal v1 v2 && beqFields xs ys)
  | _, _ => false
end


mutual
/-- `parse_json` (routes.py line 46): `json.loads(json_util.dumps(data))`.
`bson.json_util` renders an ObjectId as the extended-JSON object
`{"$oid": "<hex>"}`; all other values pass through structurally. -/
def parseJsonVal : Value → Value
  | .vNull => .vNull
  | .vBool b => .vBool b
  | .vInt n => .vInt n
  | .vStr s => .vStr s
  | .vOid h => .vObj [("$oid", .vStr h)]
  | .vArr xs => .vArr (parseJsonArr xs)
  | .vObj fs => .vObj (parseJsonFields fs)

def parseJsonArr : List Value → List Value
  | [] => []
  | v :: vs => parseJsonVal v :: parseJsonArr vs

def parseJsonFields : List (String × Value) → List (String × Value)
  | [] => []
  | (k, v) :: fs => (k, parseJsonVal v) :: parseJsonFields fs
end

/-- `parse_json` applied to a single document. -/
def parseJsonDoc (d : Doc) : Doc := parseJsonFields d

/-- Mongo equality-match of the filter `{k: v}` against a document. -/
def matchesField (d : Doc) (k : String) (v : Value) : Bool :=
  match getField d k with
  | some w => beqVal w v
  | none => false

/-- `find_one({k: v})`: first document in natural order matching the filter. -/
def findOneBy (db : DB) (k : String) (v : Value) : Option Doc :=
  db.find? (fun d => matchesField d k v)

/-- `find({})` returns every document; `count_documents({})` its length;
both are `db` itself / `db.length` in the model. -/
def countDocuments (db : DB) : Nat := db.length

/-- `delete_one({k: v})`: removes the first matching document; returns
`deleted_count` and the new collection. -/
def deleteOne (db : DB) (k : String) (v : Value) : Nat × DB :=
  match db with
  | [] => (0, [])
  | d :: rest =>
    if matchesField d k v then (1, rest)
    else
      let r := deleteOne rest k v
      (r.1, d :: r.2)

/-- `$set` of a single field: overwrite in place, else append. -/
def setField (d : Doc) (k : String) (v : Value) : Doc :=
  match d with
  | [] => [(k, v)]
  | (k', v') :: rest => if k' == k then (k, v) :: rest else (k', v') :: setField rest k v

/-- `$set` of an update document: Mongo's shallow field merge. -/
def setFields (d : Doc) (upd : Doc) : Doc :=
  match upd with
  | [] => d
  | (k, v) :: rest => setFields (setField d k v) rest

/-- `find_one_and_update({k: v}, {"$set": upd}, return_document=AFTER)`:
merge into the first matching document; return the post-merge document
(or `none`) together with the new collection. -/
def findOneAndUpdate (db : DB) (k : String) (v : Value) (upd : Doc) : Option Doc × DB :=
  match db with
  | [] => (none, [])
  | d :: rest =>
    if matchesField d k v then
      let d' := setFields d upd
      (some d', d' :: rest)
    else
      let r := findOneAndUpdate rest k v upd
      (r.1, d :: r.2)

/-- `insert_one(doc)`: pymongo generates a fresh ObjectId `_id` (prepended
to the document) when the payload has none; the document is appended to
the collection in natural order. Returns `inserted_id`. -/
def insertOne (db : DB) (doc : Doc) (fresh : String) : Value × DB :=
  match getField doc "_id" with
  | some v => (v, db ++ [doc])
  | none => (.vOid fresh, db ++ [("_id", Value.vOid fresh) :: doc])

/-- An HTTP response: a JSON body and a status code. -/
structure Resp where
  body : Value
  status : Nat

/-- A store call, as recorded in a handler's trace. -/
inductive StoreOp where
  | findOne (k : String) (v : Value)
  | findAll
  | countDocs
  | insertOne
  | deleteOne (k : String) (v : Value)
  | findOneAndUpdate (k : String) (v : Value)

/-- The observable outcome of one request: the response (or
`Except.error` when an exception escapes the handler uncaught), the
collection afterwards, and the trace of store calls attempted. -/
structure Outcome where
  resp : Except Unit Resp
  db : DB
  trace : List StoreOp

def respNoInput : Resp := { body := .vObj [("error", .vStr "No input data provided")], status := 400 }
def respInternal : Resp := { body := .vObj [("error", .vStr "Internal server error")], status := 500 }
def respCreateFailed : Resp := { body := .vObj [("error", .vStr "Failed to create song")], status := 500 }
def respUpdateFailed : Resp := { body := .vObj [("error", .vStr "Failed to update song")], status := 500 }
def respDeleteFailed : Resp := { body := .vObj [("error", .vStr "Failed to delete song")], status := 500 }
def respNotFoundLower : Resp := { body := .vObj [("message", .vStr "song not found")], status := 404 }
def respNotFoundUpper : Resp := { body := .vObj [("message", .vStr "Song not found")], status := 404 }
def respInvalidId : Resp := { body := .vObj [("error", .vStr "Invalid song ID")], status := 400 }
def respInvalidIdFormat : Resp := { body := .vObj [("error", .vStr "Invalid song ID format")], status := 400 }
def respNoContent : Resp := { body := .vStr "", status := 204 }

/-- The fault-free store schedule. -/
def noFaults : Nat → Bool := fun _ => false

/-- Python f-string rendering of a field value (`f"... {song['id']} ..."`). -/
def pyStr : Value → String
  | .vNull => "None"
  | .vBool b => if b then "True" else "False"
  | .vInt n => toString n
  | .vStr s => s
  | .vOid h => h
  | _ => ""

/-- Python `str.isdigit` over ASCII strings: nonempty, all decimal digits. -/
def pyIsDigit (s : String) : Bool := !s.isEmpty && s.toList.all Char.isDigit

/-- Decimal value of a digit list, most significant first. -/
def digitsToNat (cs : List Char) (acc : Nat) : Nat :=
  match cs with
  | [] => acc
  | c :: rest => digitsToNat rest (acc * 10 + (c.toNat - 48))

/-- Python `int(s)` for an all-digit string. -/
def pyInt (s : String) : Int := (digitsToNat s.toList 0 : Nat)

/-- Hexadecimal digit. -/
def isHexChar (c : Char) : Bool := c.isDigit || ('a' ≤ c && c ≤ 'f') || ('A' ≤ c && c ≤ 'F')

/-- `bson.ObjectId(s)` on a string succeeds iff `s` is a 24-character hex
string; otherwise it raises `InvalidId`. -/
def isValidOid (s : String) : Bool := s.length == 24 && s.toList.all isHexChar

/-- `GET /count` (`count_songs`, routes.py lines 67-75). -/
def count_songs (db : DB) (f : Nat → Bool) : Outcome :=
  if f 0 then { resp := .ok respInternal, db := db, trace := [.countDocs] }
  else
    { resp := .ok { body := .vObj [("count", .vInt (countDocuments db : Nat))], status := 200 },
      db := db, trace := [.countDocs] }

/-- `GET /song` (`get_all_songs`, routes.py lines 85-92): the whole
collection, wrapped under the `songs` key. -/
def get_all_songs (db : DB) (f : Nat → Bool) : Outcome :=
  if f 0 then { resp := .ok respInternal, db := db, trace := [.findAll] }
  else
    { resp := .ok { body := .vObj [("songs", .vArr (db.map (fun d => Value.vObj (parseJsonDoc d))))],
                    status := 200 },
      db := db, trace := [.findAll] }

/-- `GET /songs` (`get_songs`, routes.py lines 151-159): the whole
collection as a bare array. -/
def get_songs (db : DB) (f : Nat → Bool) : Outcome :=
  if f 0 then { resp := .ok respInternal, db := db, trace := [.findAll] }
  else
    { resp := .ok { body := .vArr (db.map (fun d => Value.vObj (parseJsonDoc d))), status := 200 },
      db := db, trace := [.findAll] }

/-- Tail of `create_song` (routes.py lines 106-108): `insert_one` followed
by the read-back `find_one({"_id": inserted_id})`. `i` is the index of the
next store call; `tr` the trace so far. A fault in either call is caught
by the surrounding `except`. -/
def create_song_insert (db : DB) (song : Doc) (fresh : String) (f : Nat → Bool)
    (i : Nat) (tr : List StoreOp) : Outcome :=
  if f i then { resp := .ok respCreateFailed, db := db, trace := tr ++ [.insertOne] }
  else
    let r := insertOne db song fresh
    if f (i + 1) then
      { resp := .ok respCreateFailed, db := r.2, trace := tr ++ [.insertOne, .findOne "_id" r.1] }
    else
      match findOneBy r.2 "_id" r.1 with
      | some newSong =>
        { resp := .ok { body := .vObj (parseJsonDoc newSong), status := 201 },
          db := r.2, trace := tr ++ [.insertOne, .findOne "_id" r.1] }
      | none =>
        { resp := .ok { body := .vNull, status := 201 },
          db := r.2, trace := tr ++ [.insertOne, .findOne "_id" r.1] }

/-- `POST /song` and `POST /songs` (`create_song`, routes.py lines 94-111).
`song?` is `request.get_json()` (`none` = missing body); an empty document
is falsy in Python, hence also bad-request. The duplicate check runs only
when the payload has an `id` key, and returns 302 FOUND when a record with
that exact `id` value exists. -/
def create_song (db : DB) (song? : Option Doc) (fresh : String) (f : Nat → Bool) : Outcome :=
  match song? with
  | none => { resp := .ok respNoInput, db := db, trace := [] }
  | some song =>
    if song.isEmpty then { resp := .ok respNoInput, db := db, trace := [] }
    else
      match getField song "id" with
      | some v =>
        if f 0 then { resp := .ok respCreateFailed, db := db, trace := [.findOne "id" v] }
        else
          match findOneBy db "id" v with
          | some existing =>
            if existing.isEmpty then create_song_insert db song fresh f 1 [.findOne "id" v]
            else
              { resp := .ok { body := .vObj [("Message",
                    .vStr ("song with id " ++ pyStr v ++ " already present"))], status := 302 },
                db := db, trace := [.findOne "id" v] }
          | none => create_song_insert db song fresh f 1 [.findOne "id" v]
      | none => create_song_insert db song fresh f 0 []

/-- `PUT /song/<int:id>` (the PUT branch of `handle_song`, routes.py
lines 116-135): merge the payload into the record with that `id`. -/
def handle_song_put (db : DB) (id : Int) (songData? : Option Doc) (f : Nat → Bool) : Outcome :=
  match songData? with
  | none => { resp := .ok respNoInput, db := db, trace := [] }
  | some u =>
    if u.isEmpty then { resp := .ok respNoInput, db := db, trace := [] }
    else if f 0 then
      { resp := .ok respUpdateFailed, db := db, trace := [.findOneAndUpdate "id" (.vInt id)] }
    else
      let r := findOneAndUpdate db "id" (.vInt id) u
      match r.1 with
      | some updated =>
        if updated.isEmpty then
          { resp := .ok respNotFoundLower, db := r.2, trace := [.findOneAndUpdate "id" (.vInt id)] }
        else
          { resp := .ok { body := .vObj (parseJsonDoc updated), status := 201 },
            db := r.2, trace := [.findOneAndUpdate "id" (.vInt id)] }
      | none =>
        { resp := .ok respNotFoundLower, db := r.2, trace := [.findOneAndUpdate "id" (.vInt id)] }

/-- `DELETE /song/<int:id>` (the DELETE branch of `handle_song`, routes.py
lines 136-144). -/
def handle_song_delete (db : DB) (id : Int) (f : Nat → Bool) : Outcome :=
  if f 0 then { resp := .ok respDeleteFailed, db := db, trace := [.deleteOne "id" (.vInt id)] }
  else
    let r := deleteOne db "id" (.vInt id)
    if r.1 == 0 then
      { resp := .ok respNotFoundLower, db := r.2, trace := [.deleteOne "id" (.vInt id)] }
    else { resp := .ok respNoContent, db := r.2, trace := [.deleteOne "id" (.vInt id)] }

/-- `GET /song/<int:id>` (the GET branch of `handle_song`, routes.py
lines 145-149). This branch has NO try/except: a store failure escapes
the handler uncaught. -/
def handle_song_get (db : DB) (id : Int) (f : Nat → Bool) : Outcome :=
  if f 0 then { resp := .error (), db := db, trace := [.findOne "id" (.vInt id)] }
  else
    match findOneBy db "id" (.vInt id) with
    | some song =>
      if song.isEmpty then
        { resp := .ok respNotFoundLower, db := db, trace := [.findOne "id" (.vInt id)] }
      else
        { resp := .ok { body := .vObj (parseJsonDoc song), status := 200 },
          db := db, trace := [.findOne "id" (.vInt id)] }
    | none => { resp := .ok respNotFoundLower, db := db, trace := [.findOne "id" (.vInt id)] }

/-- `GET /songs/<id>` (`get_song`, routes.py lines 161-178): flexible id.
Digit segment → resolve by `id` as an integer (a store fault there is
caught by the OUTER `except` and reported as 400 "Invalid song ID");
otherwise try `ObjectId` — the inner bare `except` turns both a malformed
ObjectId and a store fault into `song = None`, hence 404. -/
def get_song (db : DB) (seg : String) (f : Nat → Bool) : Outcome :=
  if pyIsDigit seg then
    if f 0 then { resp := .ok respInvalidId, db := db, trace := [.findOne "id" (.vInt (pyInt seg))] }
    else
      match findOneBy db "id" (.vInt (pyInt seg)) with
      | some song =>
        if song.isEmpty then
          { resp := .ok respNotFoundUpper, db := db, trace := [.findOne "id" (.vInt (pyInt seg))] }
        else
          { resp := .ok { body := .vObj (parseJsonDoc song), status := 200 },
            db := db, trace := [.findOne "id" (.vInt (pyInt seg))] }
      | none =>
        { resp := .ok respNotFoundUpper, db := db, trace := [.findOne "id" (.vInt (pyInt seg))] }
  else if isValidOid seg then
    if f 0 then { resp := .ok respNotFoundUpper, db := db, trace := [.findOne "_id" (.vOid seg)] }
    else
      match findOneBy db "_id" (.vOid seg) with
      | some song =>
        if song.isEmpty then
          { resp := .ok respNotFoundUpper, db := db, trace := [.findOne "_id" (.vOid seg)] }
        else
          { resp := .ok { body := .vObj (parseJsonDoc song), status := 200 },
            db := db, trace := [.findOne "_id" (.vOid seg)] }
      | none => { resp := .ok respNotFoundUpper, db := db, trace := [.findOne "_id" (.vOid seg)] }
  else { resp := .ok respNotFoundUpper, db := db, trace := [] }

/-- `PUT /songs/<id>` (`update_song_legacy`, routes.py lines 185-215):
flexible id. Digit segment → update by `id` (store fault → outer except →
500); otherwise the inner `except` turns both a malformed ObjectId and a
store fault into 400 "Invalid song ID format". -/
def update_song_legacy (db : DB) (seg : String) (songData? : Option Doc) (f : Nat → Bool) : Outcome :=
  match songData? with
  | none => { resp := .ok respNoInput, db := db, trace := [] }
  | some u =>
    if u.isEmpty then { resp := .ok respNoInput, db := db, trace := [] }
    else if pyIsDigit seg then
      if f 0 then
        { resp := .ok respUpdateFailed, db := db,
          trace := [.findOneAndUpdate "id" (.vInt (pyInt seg))] }
      else
        let r := findOneAndUpdate db "id" (.vInt (pyInt seg)) u
        match r.1 with
        | some updated =>
          if updated.isEmpty then
            { resp := .ok respNotFoundLower, db := r.2,
              trace := [.findOneAndUpdate "id" (.vInt (pyInt seg))] }
          else
            { resp := .ok { body := .vObj (parseJsonDoc updated), status := 201 },
              db := r.2, trace := [.findOneAndUpdate "id" (.vInt (pyInt seg))] }
        | none =>
          { resp := .ok respNotFoundLower, db := r.2,
            trace := [.findOneAndUpdate "id" (.vInt (pyInt seg))] }
    else if isValidOid seg then
      if f 0 then
        { resp := .ok respInvalidIdFormat, db := db,
          trace := [.findOneAndUpdate "_id" (.vOid seg)] }
      else
        let r := findOneAndUpdate db "_id" (.vOid seg) u
        match r.1 with
        | some updated =>
          if updated.isEmpty then
            { resp := .ok respNotFoundLower, db := r.2,
              trace := [.findOneAndUpdate "_id" (.vOid seg)] }
          else
            { resp := .ok { body := .vObj (parseJsonDoc updated), status := 201 },
              db := r.2, trace := [.findOneAndUpdate "_id" (.vOid seg)] }
        | none =>
          { resp := .ok respNotFoundLower, db := r.2,
            trace := [.findOneAndUpdate "_id" (.vOid seg)] }
    else { resp := .ok respInvalidIdFormat, db := db, trace := [] }

/-- `DELETE /songs/<id>` (`delete_song_legacy`, routes.py lines 217-234):
flexible id. Digit segment → delete by `id` (store fault → outer except →
500); otherwise the inner `except` turns both a malformed ObjectId and a
store fault into `result = None`, hence 404. -/
def delete_song_legacy (db : DB) (seg : String) (f : Nat → Bool) : Outcome :=
  if pyIsDigit seg then
    if f 0 then
      { resp := .ok respDeleteFailed, db := db, trace := [.deleteOne "id" (.vInt (pyInt seg))] }
    else
      let r := deleteOne db "id" (.vInt (pyInt seg))
      if r.1 == 0 then
        { resp := .ok respNotFoundUpper, db := r.2, trace := [.deleteOne "id" (.vInt (pyInt seg))] }
      else
        { resp := .ok respNoContent, db := r.2, trace := [.deleteOne "id" (.vInt (pyInt seg))] }
  else if isValidOid seg then
    if f 0 then
      { resp := .ok respNotFoundUpper, db := db, trace := [.deleteOne "_id" (.vOid seg)] }
    else
      let r := deleteOne db "_id" (.vOid seg)
      if r.1 == 0 then
        { resp := .ok respNotFoundUpper, db := r.2, trace := [.deleteOne "_id" (.vOid seg)] }
      else
        { resp := .ok respNoContent, db := r.2, trace := [.deleteOne "_id" (.vOid seg)] }
  else { resp := .ok respNotFoundUpper, db := db, trace := [] }

/-! ## Derived operations and supporting lemmas -/

/-- The collection with the first document matching `{k: v}` replaced by `d'`. -/
def replaceFirstWith (db : DB) (k : String) (v : Value) (d' : Doc) : DB :=
  match db with
  | [] => []
  | d :: rest => if matchesField d k v then d' :: rest else d :: replaceFirstWith rest k v d'

/-- The collection with the first document matching `{k: v}` removed. -/
def eraseFirstMatch (db : DB) (k : String) (v : Value) : DB :=
  match db with
  | [] => []
  | d :: rest => if matchesField d k v then rest else d :: eraseFirstMatch rest k v

/-- How many documents match the filter `{k: v}`. -/
def countMatches (db : DB) (k : String) (v : Value) : Nat :=
  (db.filter (fun d => matchesField d k v)).length

/-- The spec's id-resolution rule, stated from its own words (spec.md §4.2):
"if the path segment consists entirely of decimal digits, resolve by the
application-level `id` field as an integer; otherwise attempt to interpret
it as a native-key value and resolve by that — any failure to parse as a
native key is treated as no match". -/
def specResolveFlex (db : DB) (seg : String) : Option Doc :=
  if pyIsDigit seg then findOneBy db "id" (.vInt (pyInt seg))
  else if isValidOid seg then findOneBy db "_id" (.vOid seg)
  else none

/-- A sample 24-character hexadecimal ObjectId value. -/
def oidA : String := "0123456789abcdef01234567"

/-- A second, distinct sample ObjectId value. -/
def oidB : String := "89abcdef0123456789abcdef"

mutual
theorem beqVal_refl : ∀ a, beqVal a a = true
  | .vNull => rfl
  | .vBool b => by simp [beqVal]
  | .vInt n => by simp [beqVal]
  | .vStr s => by simp [beqVal]
  | .vOid h => by simp [beqVal]
  | .vArr xs => by simp [beqVal, beqArr_refl xs]
  | .vObj fs => by simp [beqVal, beqFields_refl fs]

theorem beqArr_refl : ∀ xs, beqArr xs xs = true
  | [] => rfl
  | x :: xs => by simp [beqArr, beqVal_refl x, beqArr_refl xs]

theorem beqFields_refl : ∀ fs, beqFields fs fs = true
  | [] => rfl
  | (k, v) :: fs => by simp [beqFields, beqVal_refl v, beqFields_refl fs]
end

theorem getField_ne_nil {d : Doc} {k : String} {v : Value} (h : getField d k = some v) :
    d ≠ [] := by
  intro hd
  subst hd
  simp [getField] at h

theorem matchesField_of_getField {d : Doc} {k : String} {v : Value}
    (h : getField d k = some v) : matchesField d k v = true := by
  unfold matchesField
  rw [h]
  exact beqVal_refl v

theorem matchesField_getField {d : Doc} {k : String} {v : Value}
    (h : matchesField d k v = true) : ∃ w, getField d k = some w := by
  unfold matchesField at h
  cases hg : getField d k with
  | none => rw [hg] at h; simp at h
  | some w => exact ⟨w, rfl⟩

theorem findOneBy_cons (d : Doc) (rest : DB) (k : String) (v : Value) :
    findOneBy (d :: rest) k v = if matchesField d k v then some d else findOneBy rest k v := by
  cases hm : matchesField d k v <;> simp [findOneBy, List.find?, hm]

theorem findOneBy_some_matches {db : DB} {k : String} {v : Value} {d : Doc}
    (h : findOneBy db k v = some d) : matchesField d k v = true := by
  unfold findOneBy at h
  have hp := List.find?_some h
  simpa using hp

theorem findOneBy_some_ne_nil {db : DB} {k : String} {v : Value} {d : Doc}
    (h : findOneBy db k v = some d) : d ≠ [] := by
  obtain ⟨w, hw⟩ := matchesField_getField (findOneBy_some_matches h)
  exact getField_ne_nil hw

theorem findOneBy_isSome_of_mem {db : DB} {k : String} {v : Value} {d : Doc}
    (hmem : d ∈ db) (hg : getField d k = some v) : (findOneBy db k v).isSome := by
  induction db with
  | nil => cases hmem
  | cons hd tl ih =>
    rw [findOneBy_cons]
    rcases List.mem_cons.mp hmem with rfl | hm
    · rw [matchesField_of_getField hg]
      simp
    · cases hm2 : matchesField hd k v
      · simpa using ih hm
      · simp

theorem findOneBy_append (db1 db2 : DB) (k : String) (v : Value) :
    findOneBy (db1 ++ db2) k v = (findOneBy db1 k v).or (findOneBy db2 k v) := by
  simp [findOneBy, List.find?_append]

theorem deleteOne_of_findOneBy_none {db : DB} {k : String} {v : Value}
    (h : findOneBy db k v = none) : deleteOne db k v = (0, db) := by
  induction db with
  | nil => rfl
  | cons d rest ih =>
    rw [findOneBy_cons] at h
    cases hm : matchesField d k v
    · rw [hm] at h
      simp only [Bool.false_eq_true, if_false] at h
      simp [deleteOne, hm, ih h]
    · rw [hm] at h
      simp at h

theorem deleteOne_of_findOneBy_some {db : DB} {k : String} {v : Value} {d : Doc}
    (h : findOneBy db k v = some d) : deleteOne db k v = (1, eraseFirstMatch db k v) := by
  induction db with
  | nil => simp [findOneBy, List.find?] at h
  | cons d0 rest ih =>
    rw [findOneBy_cons] at h
    cases hm : matchesField d0 k v
    · rw [hm] at h
      simp only [Bool.false_eq_true, if_false] at h
      simp [deleteOne, eraseFirstMatch, hm, ih h]
    · simp [deleteOne, eraseFirstMatch, hm]

theorem findOneAndUpdate_of_findOneBy_none {db : DB} {k : String} {v : Value} (u : Doc)
    (h : findOneBy db k v = none) : findOneAndUpdate db k v u = (none, db) := by
  induction db with
  | nil => rfl
  | cons d rest ih =>
    rw [findOneBy_cons] at h
    cases hm : matchesField d k v
    · rw [hm] at h
      simp only [Bool.false_eq_true, if_false] at h
      simp [findOneAndUpdate, hm, ih h]
    · rw [hm] at h
      simp at h

theorem findOneAndUpdate_of_findOneBy_some {db : DB} {k : String} {v : Value} {d : Doc} (u : Doc)
    (h : findOneBy db k v = some d) :
    findOneAndUpdate db k v u = (some (setFields d u), replaceFirstWith db k v (setFields d u)) := by
  induction db with
  | nil => simp [findOneBy, List.find?] at h
  | cons d0 rest ih =>
    rw [findOneBy_cons] at h
    cases hm : matchesField d0 k v
    · rw [hm] at h
      simp only [Bool.false_eq_true, if_false] at h
      simp [findOneAndUpdate, replaceFirstWith, hm, ih h]
    · rw [hm] at h
      simp only [if_true] at h
      have hd : d0 = d := by simpa using h
      subst hd
      simp [findOneAndUpdate, replaceFirstWith, hm]

theorem countMatches_cons (d : Doc) (rest : DB) (k : String) (v : Value) :
    countMatches (d :: rest) k v =
      (if matchesField d k v then 1 else 0) + countMatches rest k v := by
  cases hm : matchesField d k v <;>
      simp [countMatches, List.filter_cons, hm]
  omega

theorem findOneBy_none_of_countMatches_zero {db : DB} {k : String} {v : Value}
    (h : countMatches db k v = 0) : findOneBy db k v = none := by
  induction db with
  | nil => rfl
  | cons d rest ih =>
    rw [countMatches_cons] at h
    rw [findOneBy_cons]
    cases hm : matchesField d k v
    · rw [hm] at h
      simp only [Bool.false_eq_true, if_false] at h
      simp only [Bool.false_eq_true, if_false]
      exact ih (by omega)
    · rw [hm] at h
      simp at h

theorem findOneBy_erase_of_unique {db : DB} {k : String} {v : Value}
    (hcount : countMatches db k v ≤ 1) (hsome : (findOneBy db k v).isSome) :
    findOneBy (eraseFirstMatch db k v) k v = none := by
  induction db with
  | nil => simp [findOneBy, List.find?] at hsome
  | cons d rest ih =>
    rw [countMatches_cons] at hcount
    rw [findOneBy_cons] at hsome
    cases hm : matchesField d k v
    · rw [hm] at hsome hcount
      simp only [Bool.false_eq_true, if_false] at hsome hcount
      simp only [eraseFirstMatch, hm, Bool.false_eq_true, if_false]
      rw [findOneBy_cons, hm]
      simp only [Bool.false_eq_true, if_false]
      exact ih (by omega) hsome
    · rw [hm] at hcount
      simp only [if_true] at hcount
      simp only [eraseFirstMatch, hm, if_true]
      exact findOneBy_none_of_countMatches_zero (by omega)

theorem setField_ne_nil (d : Doc) (k : String) (v : Value) : setField d k v ≠ [] := by
  cases d with
  | nil => simp [setField]
  | cons kv rest =>
    rcases kv with ⟨k', v'⟩
    simp only [setField]
    split <;> simp

theorem setFields_ne_nil : ∀ (u d : Doc), d ≠ [] → setFields d u ≠ []
  | [], _, h => h
  | (k, v) :: rest, d, _ => setFields_ne_nil rest (setField d k v) (setField_ne_nil d k v)

theorem getField_cons (k0 : String) (v0 : Value) (rest : Doc) (k : String) :
    getField ((k0, v0) :: rest) k = if k0 = k then some v0 else getField rest k := by
  by_cases h : k0 = k
  · subst h
    simp [getField, List.find?]
  · have hb : (k0 == k) = false := by simpa using h
    simp [getField, List.find?, hb, h]

theorem getField_setField (d : Doc) (k k' : String) (v : Value) :
    getField (setField d k v) k' = if k = k' then some v else getField d k' := by
  induction d with
  | nil =>
    by_cases h : k = k' <;> simp [setField, getField_cons, getField, h]
  | cons kv rest ih =>
    rcases kv with ⟨k0, v0⟩
    simp only [setField]
    by_cases h0 : k0 = k
    · subst h0
      simp only [beq_self_eq_true, if_true]
      by_cases h : k0 = k' <;> simp [getField_cons, h]
    · rw [if_neg (by simpa using h0)]
      by_cases h : k0 = k'
      · subst h
        have hkk : ¬ k = k0 := fun hc => h0 hc.symm
        simp [getField_cons, hkk]
      · simp [getField_cons, h, ih]

theorem getField_none_of_not_mem_keys {u : Doc} {k : String}
    (h : k ∉ u.map Prod.fst) : getField u k = none := by
  induction u with
  | nil => rfl
  | cons kv rest ih =>
    rcases kv with ⟨k0, v0⟩
    simp only [List.map, List.mem_cons] at h
    push_neg at h
    rw [getField_cons, if_neg (fun hc => h.1 hc.symm)]
    exact ih h.2

theorem getField_setFields : ∀ (u d : Doc) (k : String), (u.map Prod.fst).Nodup →
    getField (setFields d u) k =
      match getField u k with
      | some w => some w
      | none => getField d k := by
  intro u
  induction u with
  | nil => intro d k _; rfl
  | cons kv rest ih =>
    intro d k hnodup
    rcases kv with ⟨k0, v0⟩
    simp only [List.map, List.nodup_cons] at hnodup
    simp only [setFields]
    rw [ih (setField d k0 v0) k hnodup.2, getField_cons]
    by_cases h : k0 = k
    · subst h
      rw [getField_none_of_not_mem_keys hnodup.1]
      simp [getField_setField]
    · rw [if_neg h]
      cases hr : getField rest k
      · simp [getField_setField, fun hc : k0 = k => h hc]
      · rfl

theorem isEmpty_false_of_ne_nil {α : Type} {l : List α} (h : l ≠ []) : l.isEmpty = false := by
  cases l with
  | nil => exact absurd rfl h
  | cons a as => rfl

theorem getField_parseJsonFields : ∀ (d : Doc) (k : String),
    getField (parseJsonFields d) k = (getField d k).map parseJsonVal := by
  intro d
  induction d with
  | nil => intro k; rfl
  | cons kv rest ih =>
    intro k
    rcases kv with ⟨k0, v0⟩
    rw [parseJsonFields, getField_cons, getField_cons]
    by_cases h : k0 = k <;> simp [h, ih]

/-! ## Claims -/

/-- C7: for every collection state, `GET /song` returns the full list of
records wrapped in an object under the `songs` key, while `GET /songs`
returns the same list as a bare array; both return status 200. -/
theorem C7_list_endpoint_shapes (db : DB) :
    get_all_songs db noFaults =
      { resp := .ok { body := .vObj [("songs", .vArr (db.map fun d => Value.vObj (parseJsonDoc d)))],
                      status := 200 },
        db := db, trace := [.findAll] } ∧
    get_songs db noFaults =
      { resp := .ok { body := .vArr (db.map fun d => Value.vObj (parseJsonDoc d)), status := 200 },
        db := db, trace := [.findAll] } :=
  ⟨rfl, rfl⟩

/-- C5 counterexample: the native primary key is NOT rendered as a plain
string in response bodies — `parse_json` (bson.json_util) renders it as
the extended-JSON object `{"$oid": "<hex>"}`. On a concrete one-record
collection, `GET /song` returns the record with `_id` bound to an object
value, which is not a string. -/
theorem C5_counterexample_oid_not_plain_string :
    (get_all_songs [[("_id", .vOid oidA), ("title", .vStr "Rock Song")]] noFaults).resp =
      .ok { body := .vObj [("songs", .vArr [.vObj
              [("_id", .vObj [("$oid", .vStr oidA)]), ("title", .vStr "Rock Song")]])],
            status := 200 } ∧
    Value.isStr (.vObj [("$oid", .vStr oidA)]) = false :=
  ⟨rfl, rfl⟩

/-- C6 counterexample: the GET branch of `handle_song`
(`GET /song/<int:id>`, routes.py lines 145-149) has no try/except: a
store failure there escapes the handler as a raw exception. -/
theorem C6_counterexample_numeric_get_unwrapped :
    (handle_song_get [] 0 (fun _ => true)).resp = .error () := rfl

/-- Helper: the duplicate-`id` conflict path of `create_song` (routes.py
lines 101-104): when the `id` filter finds an existing record, the handler
answers 302 FOUND with the `Message` body and performs no insert. -/
theorem create_song_conflict (db : DB) (song : Doc) (v : Value) (fresh : String) (e : Doc)
    (hfind : findOneBy db "id" v = some e)
    (hsid : getField song "id" = some v) :
    create_song db (some song) fresh noFaults =
      { resp := .ok { body := .vObj [("Message",
            .vStr ("song with id " ++ pyStr v ++ " already present"))], status := 302 },
        db := db, trace := [.findOne "id" v] } := by
  have hsne : song.isEmpty = false := isEmpty_false_of_ne_nil (getField_ne_nil hsid)
  have hene : e.isEmpty = false := isEmpty_false_of_ne_nil (findOneBy_some_ne_nil hfind)
  simp [create_song, noFaults, hsne, hsid, hfind, hene]

/-- C2: when the collection contains a record carrying `id = v` and the
create payload carries the same `id = v`, create answers the
duplicate-conflict response — status 302 FOUND, not 409 — and leaves the
collection unchanged (no second record with that id is inserted). -/
theorem C2_duplicate_create_conflict (db : DB) (song d : Doc) (v : Value) (fresh : String)
    (hmem : d ∈ db) (hdid : getField d "id" = some v)
    (hsid : getField song "id" = some v) :
    create_song db (some song) fresh noFaults =
      { resp := .ok { body := .vObj [("Message",
            .vStr ("song with id " ++ pyStr v ++ " already present"))], status := 302 },
        db := db, trace := [.findOne "id" v] } := by
  obtain ⟨e, he⟩ := Option.isSome_iff_exists.mp (findOneBy_isSome_of_mem hmem hdid)
  exact create_song_conflict db song v fresh e he hsid

/-- C2 witness: concrete duplicate create on a one-record collection. -/
theorem C2_witness :
    create_song [[("id", .vInt 7), ("title", .vStr "A")]]
        (some [("id", .vInt 7), ("title", .vStr "B")]) oidB noFaults =
      { resp := .ok { body := .vObj [("Message",
            .vStr "song with id 7 already present")], status := 302 },
        db := [[("id", .vInt 7), ("title", .vStr "A")]],
        trace := [.findOne "id" (.vInt 7)] } :=
  C2_duplicate_create_conflict _ [("id", .vInt 7), ("title", .vStr "B")]
    [("id", .vInt 7), ("title", .vStr "A")] (.vInt 7) oidB (by simp) rfl rfl

/-- Helper: the fault-free outcome of `create_song` on a non-empty
payload without `id` or `_id` keys: the record gains a fresh native key
and is appended; the trace holds only the insert and the read-back. -/
theorem create_song_no_id_outcome (db : DB) (song : Doc) (fresh : String)
    (hne : song ≠ []) (hnoid : getField song "id" = none) (hnooid : getField song "_id" = none)
    (hfresh : findOneBy db "_id" (.vOid fresh) = none) :
    create_song db (some song) fresh noFaults =
      { resp := .ok { body := .vObj (parseJsonDoc (("_id", Value.vOid fresh) :: song)),
                      status := 201 },
        db := db ++ [("_id", Value.vOid fresh) :: song],
        trace := [.insertOne, .findOne "_id" (.vOid fresh)] } := by
  have hm : matchesField (("_id", Value.vOid fresh) :: song) "_id" (.vOid fresh) = true := by
    simp [matchesField, getField_cons, beqVal]
  have hfind2 : findOneBy (db ++ [("_id", Value.vOid fresh) :: song]) "_id" (.vOid fresh)
      = some (("_id", Value.vOid fresh) :: song) := by
    rw [findOneBy_append, hfresh]
    simp [findOneBy_cons, hm]
  simp [create_song, create_song_insert, insertOne, noFaults,
        isEmpty_false_of_ne_nil hne, hnoid, hnooid, hfind2]

/-- C8: a non-empty create payload without an `id` key skips the duplicate
check entirely — the trace holds exactly the insert and the single
read-after-insert lookup — and the document is always inserted with a
fresh native key, answered 201; hence any number of id-less records can
coexist (the statement holds for every prior collection state). -/
theorem C8_create_without_id_always_inserts (db : DB) (song : Doc) (fresh : String)
    (hne : song ≠ []) (hnoid : getField song "id" = none) (hnooid : getField song "_id" = none)
    (hfresh : findOneBy db "_id" (.vOid fresh) = none) :
    create_song db (some song) fresh noFaults =
      { resp := .ok { body := .vObj (parseJsonDoc (("_id", Value.vOid fresh) :: song)),
                      status := 201 },
        db := db ++ [("_id", Value.vOid fresh) :: song],
        trace := [.insertOne, .findOne "_id" (.vOid fresh)] } :=
  create_song_no_id_outcome db song fresh hne hnoid hnooid hfresh

/-- C8 witness: creating an id-less record on the empty collection. -/
theorem C8_witness :
    create_song [] (some [("title", .vStr "T")]) oidA noFaults =
      { resp := .ok { body := .vObj [("_id", .vObj [("$oid", .vStr oidA)]),
                                     ("title", .vStr "T")], status := 201 },
        db := [[("_id", Value.vOid oidA), ("title", .vStr "T")]],
        trace := [.insertOne, .findOne "_id" (.vOid oidA)] } :=
  C8_create_without_id_always_inserts [] [("title", .vStr "T")] oidA
    (by simp) rfl rfl rfl

/-- C9: the duplicate check compares `id` values type-sensitively: a
payload with string id "7" is inserted even though a record with integer
id 7 exists, and afterwards both the flexible route `GET /songs/7` and the
numeric route `GET /song/7` (which interpret "7" as the integer) still
resolve the integer-id record, so two records whose ids print identically
coexist. -/
theorem C9_type_sensitive_duplicate_check (db : DB) (song d7 : Doc) (fresh : String)
    (hsid : getField song "id" = some (.vStr "7"))
    (hnostr : findOneBy db "id" (.vStr "7") = none)
    (hnooid : getField song "_id" = none)
    (hfresh : findOneBy db "_id" (.vOid fresh) = none)
    (hint : findOneBy db "id" (.vInt 7) = some d7) :
    create_song db (some song) fresh noFaults =
      { resp := .ok { body := .vObj (parseJsonDoc (("_id", Value.vOid fresh) :: song)),
                      status := 201 },
        db := db ++ [("_id", Value.vOid fresh) :: song],
        trace := [.findOne "id" (.vStr "7"), .insertOne, .findOne "_id" (.vOid fresh)] } ∧
    findOneBy (db ++ [("_id", Value.vOid fresh) :: song]) "id" (.vInt 7) = some d7 ∧
    (get_song (db ++ [("_id", Value.vOid fresh) :: song]) "7" noFaults).resp =
      .ok { body := .vObj (parseJsonDoc d7), status := 200 } ∧
    (handle_song_get (db ++ [("_id", Value.vOid fresh) :: song]) 7 noFaults).resp =
      .ok { body := .vObj (parseJsonDoc d7), status := 200 } ∧
    getField (("_id", Value.vOid fresh) :: song) "id" = some (.vStr "7") := by
  have hne : song ≠ [] := getField_ne_nil hsid
  have hm : matchesField (("_id", Value.vOid fresh) :: song) "_id" (.vOid fresh) = true := by
    simp [matchesField, getField_cons, beqVal]
  have hfind2 : findOneBy (db ++ [("_id", Value.vOid fresh) :: song]) "_id" (.vOid fresh)
      = some (("_id", Value.vOid fresh) :: song) := by
    rw [findOneBy_append, hfresh]
    simp [findOneBy_cons, hm]
  have hint2 : findOneBy (db ++ [("_id", Value.vOid fresh) :: song]) "id" (.vInt 7) = some d7 := by
    rw [findOneBy_append, hint]
    rfl
  have hd7 : d7.isEmpty = false := isEmpty_false_of_ne_nil (findOneBy_some_ne_nil hint)
  refine ⟨?_, hint2, ?_, ?_, ?_⟩
  · simp [create_song, create_song_insert, insertOne, noFaults,
          isEmpty_false_of_ne_nil hne, hsid, hnostr, hnooid, hfind2]
  · have hdig : pyIsDigit "7" = true := by decide
    have hpi : pyInt "7" = 7 := by decide
    simp [get_song, noFaults, hdig, hpi, hint2, hd7]
  · simp [handle_song_get, noFaults, hint2, hd7]
  · rw [getField_cons, if_neg (by decide)]
    exact hsid

/-- C9 witness: concrete two-record coexistence. -/
theorem C9_witness :
    create_song [[("id", .vInt 7), ("title", .vStr "A")]]
        (some [("id", .vStr "7")]) oidA noFaults =
      { resp := .ok { body := .vObj [("_id", .vObj [("$oid", .vStr oidA)]),
                                     ("id", .vStr "7")], status := 201 },
        db := [[("id", .vInt 7), ("title", .vStr "A")],
               [("_id", Value.vOid oidA), ("id", .vStr "7")]],
        trace := [.findOne "id" (.vStr "7"), .insertOne, .findOne "_id" (.vOid oidA)] } ∧
    findOneBy [[("id", .vInt 7), ("title", .vStr "A")],
               [("_id", Value.vOid oidA), ("id", .vStr "7")]] "id" (.vInt 7) =
      some [("id", .vInt 7), ("title", .vStr "A")] ∧
    (get_song [[("id", .vInt 7), ("title", .vStr "A")],
               [("_id", Value.vOid oidA), ("id", .vStr "7")]] "7" noFaults).resp =
      .ok { body := .vObj [("id", .vInt 7), ("title", .vStr "A")], status := 200 } ∧
    (handle_song_get [[("id", .vInt 7), ("title", .vStr "A")],
                      [("_id", Value.vOid oidA), ("id", .vStr "7")]] 7 noFaults).resp =
      .ok { body := .vObj [("id", .vInt 7), ("title", .vStr "A")], status := 200 } ∧
    getField [("_id", Value.vOid oidA), ("id", .vStr "7")] "id" = some (.vStr "7") :=
  C9_type_sensitive_duplicate_check [[("id", .vInt 7), ("title", .vStr "A")]]
    [("id", .vStr "7")] [("id", .vInt 7), ("title", .vStr "A")] oidA
    rfl rfl rfl rfl rfl

/-- C10: bad-request outcomes (missing or empty payload on create and on
both update routes, and a malformed native key on the legacy update) and
the duplicate-conflict outcome on create all leave the collection exactly
as it was. -/
theorem C10_errors_leave_state_unchanged (db : DB) (u song d : Doc) (v : Value)
    (seg sego : String) (id : Int) (fresh : String)
    (hmem : d ∈ db) (hdid : getField d "id" = some v) (hsid : getField song "id" = some v)
    (hu : u ≠ []) (ho1 : pyIsDigit sego = false) (ho2 : isValidOid sego = false) :
    create_song db none fresh noFaults = { resp := .ok respNoInput, db := db, trace := [] } ∧
    create_song db (some []) fresh noFaults = { resp := .ok respNoInput, db := db, trace := [] } ∧
    handle_song_put db id none noFaults = { resp := .ok respNoInput, db := db, trace := [] } ∧
    handle_song_put db id (some []) noFaults = { resp := .ok respNoInput, db := db, trace := [] } ∧
    update_song_legacy db seg none noFaults = { resp := .ok respNoInput, db := db, trace := [] } ∧
    update_song_legacy db seg (some []) noFaults =
      { resp := .ok respNoInput, db := db, trace := [] } ∧
    update_song_legacy db sego (some u) noFaults =
      { resp := .ok respInvalidIdFormat, db := db, trace := [] } ∧
    (create_song db (some song) fresh noFaults).db = db := by
  obtain ⟨e, he⟩ := Option.isSome_iff_exists.mp (findOneBy_isSome_of_mem hmem hdid)
  have hconf := create_song_conflict db song v fresh e he hsid
  refine ⟨rfl, rfl, rfl, rfl, rfl, rfl, ?_, ?_⟩
  · simp [update_song_legacy, isEmpty_false_of_ne_nil hu, ho1, ho2]
  · rw [hconf]

/-- C10 witness: the concrete error outcomes on a one-record collection. -/
theorem C10_witness :
    create_song [[("id", .vInt 3)]] none oidA noFaults =
      { resp := .ok respNoInput, db := [[("id", .vInt 3)]], trace := [] } ∧
    create_song [[("id", .vInt 3)]] (some []) oidA noFaults =
      { resp := .ok respNoInput, db := [[("id", .vInt 3)]], trace := [] } ∧
    handle_song_put [[("id", .vInt 3)]] 3 none noFaults =
      { resp := .ok respNoInput, db := [[("id", .vInt 3)]], trace := [] } ∧
    handle_song_put [[("id", .vInt 3)]] 3 (some []) noFaults =
      { resp := .ok respNoInput, db := [[("id", .vInt 3)]], trace := [] } ∧
    update_song_legacy [[("id", .vInt 3)]] "3" none noFaults =
      { resp := .ok respNoInput, db := [[("id", .vInt 3)]], trace := [] } ∧
    update_song_legacy [[("id", .vInt 3)]] "3" (some []) noFaults =
      { resp := .ok respNoInput, db := [[("id", .vInt 3)]], trace := [] } ∧
    update_song_legacy [[("id", .vInt 3)]] "zz" (some [("a", .vInt 1)]) noFaults =
      { resp := .ok respInvalidIdFormat, db := [[("id", .vInt 3)]], trace := [] } ∧
    (create_song [[("id", .vInt 3)]] (some [("id", .vInt 3)]) oidA noFaults).db =
      [[("id", .vInt 3)]] :=
  C10_errors_leave_state_unchanged [[("id", .vInt 3)]] [("a", .vInt 1)] [("id", .vInt 3)]
    [("id", .vInt 3)] (.vInt 3) "3" "zz" 3 oidA (by simp) rfl rfl (by simp)
    (by decide) (by decide)

/-- Helper: the successful update path shared by `handle_song` PUT and
`update_song_legacy`: the response is 201 with the post-merge record and
the collection has the first match replaced. -/
theorem put_success_outcome (db : DB) (id : Int) (u d : Doc)
    (hu : u ≠ []) (hfind : findOneBy db "id" (.vInt id) = some d) :
    handle_song_put db id (some u) noFaults =
      { resp := .ok { body := .vObj (parseJsonDoc (setFields d u)), status := 201 },
        db := replaceFirstWith db "id" (.vInt id) (setFields d u),
        trace := [.findOneAndUpdate "id" (.vInt id)] } := by
  have hupd := findOneAndUpdate_of_findOneBy_some u hfind
  have hsne : (setFields d u).isEmpty = false :=
    isEmpty_false_of_ne_nil (setFields_ne_nil u d (findOneBy_some_ne_nil hfind))
  simp [handle_song_put, noFaults, isEmpty_false_of_ne_nil hu, hupd, hsne]

/-- C3: update is a shallow field-by-field merge. On the numeric route and
on both flexible variants, a successful update answers 201 with the
post-merge record and stores it in place of the old one; for every key,
the merged record holds the payload's value when the key is present in
the payload and the old value otherwise — in particular the native
primary key `_id` (never supplied by clients, spec.md §3) is unchanged. -/
theorem C3_update_shallow_merge (db : DB) (u : Doc) (hu : u ≠ [])
    (hnodup : (u.map Prod.fst).Nodup) (hnoid : getField u "_id" = none) :
    (∀ (id : Int) (d : Doc), findOneBy db "id" (.vInt id) = some d →
      handle_song_put db id (some u) noFaults =
        { resp := .ok { body := .vObj (parseJsonDoc (setFields d u)), status := 201 },
          db := replaceFirstWith db "id" (.vInt id) (setFields d u),
          trace := [.findOneAndUpdate "id" (.vInt id)] } ∧
      (∀ k, getField (setFields d u) k =
        match getField u k with
        | some w => some w
        | none => getField d k) ∧
      getField (setFields d u) "_id" = getField d "_id") ∧
    (∀ (seg : String) (d : Doc), pyIsDigit seg = true →
      findOneBy db "id" (.vInt (pyInt seg)) = some d →
      update_song_legacy db seg (some u) noFaults =
        { resp := .ok { body := .vObj (parseJsonDoc (setFields d u)), status := 201 },
          db := replaceFirstWith db "id" (.vInt (pyInt seg)) (setFields d u),
          trace := [.findOneAndUpdate "id" (.vInt (pyInt seg))] }) ∧
    (∀ (seg : String) (d : Doc), pyIsDigit seg = false → isValidOid seg = true →
      findOneBy db "_id" (.vOid seg) = some d →
      update_song_legacy db seg (some u) noFaults =
        { resp := .ok { body := .vObj (parseJsonDoc (setFields d u)), status := 201 },
          db := replaceFirstWith db "_id" (.vOid seg) (setFields d u),
          trace := [.findOneAndUpdate "_id" (.vOid seg)] }) := by
  have hune : u.isEmpty = false := isEmpty_false_of_ne_nil hu
  refine ⟨?_, ?_, ?_⟩
  · intro id d hfind
    refine ⟨put_success_outcome db id u d hu hfind, ?_, ?_⟩
    · intro k
      exact getField_setFields u d k hnodup
    · rw [getField_setFields u d "_id" hnodup, hnoid]
  · intro seg d hdig hfind
    have hupd := findOneAndUpdate_of_findOneBy_some u hfind
    have hsne : (setFields d u).isEmpty = false :=
      isEmpty_false_of_ne_nil (setFields_ne_nil u d (findOneBy_some_ne_nil hfind))
    simp [update_song_legacy, noFaults, hune, hdig, hupd, hsne]
  · intro seg d hdig hoid hfind
    have hupd := findOneAndUpdate_of_findOneBy_some u hfind
    have hsne : (setFields d u).isEmpty = false :=
      isEmpty_false_of_ne_nil (setFields_ne_nil u d (findOneBy_some_ne_nil hfind))
    simp [update_song_legacy, noFaults, hune, hdig, hoid, hupd, hsne]

/-- C3 witness: a concrete title-only update preserves artist and `_id`. -/
theorem C3_witness :
    handle_song_put [[("_id", .vOid oidA), ("id", .vInt 2), ("artist", .vStr "B")]] 2
        (some [("title", .vStr "X")]) noFaults =
      { resp := .ok { body := .vObj [("_id", .vObj [("$oid", .vStr oidA)]), ("id", .vInt 2),
                                     ("artist", .vStr "B"), ("title", .vStr "X")],
                      status := 201 },
        db := [[("_id", .vOid oidA), ("id", .vInt 2), ("artist", .vStr "B"),
                ("title", .vStr "X")]],
        trace := [.findOneAndUpdate "id" (.vInt 2)] } ∧
    getField (setFields [("_id", Value.vOid oidA), ("id", .vInt 2), ("artist", .vStr "B")]
        [("title", .vStr "X")]) "artist" = some (.vStr "B") ∧
    getField (setFields [("_id", Value.vOid oidA), ("id", .vInt 2), ("artist", .vStr "B")]
        [("title", .vStr "X")]) "_id" = some (.vOid oidA) :=
  have h := C3_update_shallow_merge
    [[("_id", .vOid oidA), ("id", .vInt 2), ("artist", .vStr "B")]]
    [("title", .vStr "X")] (by simp) (by simp) rfl
  ⟨(h.1 2 [("_id", .vOid oidA), ("id", .vInt 2), ("artist", .vStr "B")] rfl).1,
   (h.1 2 [("_id", .vOid oidA), ("id", .vInt 2), ("artist", .vStr "B")] rfl).2.1 "artist",
   (h.1 2 [("_id", .vOid oidA), ("id", .vInt 2), ("artist", .vStr "B")] rfl).2.2⟩

/-- C4: with no record carrying `id = N`, GET, PUT (non-empty payload) and
DELETE by `N` all answer not-found and leave the collection unchanged;
when a unique record carries `id = N`, DELETE answers 204 with empty body
and removes it, and a second DELETE of the same id answers not-found —
both on the numeric route and on the legacy digit route — and no record
with `id = N` remains in either case. -/
theorem C4_not_found_and_delete_idempotence (db : DB) (u : Doc) (hu : u ≠ []) :
    (∀ id : Int, findOneBy db "id" (.vInt id) = none →
      handle_song_get db id noFaults =
        { resp := .ok respNotFoundLower, db := db, trace := [.findOne "id" (.vInt id)] } ∧
      handle_song_put db id (some u) noFaults =
        { resp := .ok respNotFoundLower, db := db,
          trace := [.findOneAndUpdate "id" (.vInt id)] } ∧
      handle_song_delete db id noFaults =
        { resp := .ok respNotFoundLower, db := db, trace := [.deleteOne "id" (.vInt id)] }) ∧
    (∀ id : Int, countMatches db "id" (.vInt id) ≤ 1 → (findOneBy db "id" (.vInt id)).isSome →
      handle_song_delete db id noFaults =
        { resp := .ok respNoContent, db := eraseFirstMatch db "id" (.vInt id),
          trace := [.deleteOne "id" (.vInt id)] } ∧
      findOneBy (eraseFirstMatch db "id" (.vInt id)) "id" (.vInt id) = none ∧
      handle_song_delete (eraseFirstMatch db "id" (.vInt id)) id noFaults =
        { resp := .ok respNotFoundLower, db := eraseFirstMatch db "id" (.vInt id),
          trace := [.deleteOne "id" (.vInt id)] }) ∧
    (∀ seg : String, pyIsDigit seg = true →
      countMatches db "id" (.vInt (pyInt seg)) ≤ 1 →
      (findOneBy db "id" (.vInt (pyInt seg))).isSome →
      delete_song_legacy db seg noFaults =
        { resp := .ok respNoContent, db := eraseFirstMatch db "id" (.vInt (pyInt seg)),
          trace := [.deleteOne "id" (.vInt (pyInt seg))] } ∧
      delete_song_legacy (eraseFirstMatch db "id" (.vInt (pyInt seg))) seg noFaults =
        { resp := .ok respNotFoundUpper, db := eraseFirstMatch db "id" (.vInt (pyInt seg)),
          trace := [.deleteOne "id" (.vInt (pyInt seg))] }) := by
  have hune : u.isEmpty = false := isEmpty_false_of_ne_nil hu
  refine ⟨?_, ?_, ?_⟩
  · intro id hnone
    have hdel := deleteOne_of_findOneBy_none hnone
    have hupd := findOneAndUpdate_of_findOneBy_none u hnone
    refine ⟨?_, ?_, ?_⟩
    · simp [handle_song_get, noFaults, hnone]
    · simp [handle_song_put, noFaults, hune, hupd]
    · simp [handle_song_delete, noFaults, hdel]
  · intro id hcount hsome
    obtain ⟨d, hd⟩ := Option.isSome_iff_exists.mp hsome
    have hdel := deleteOne_of_findOneBy_some hd
    have hgone : findOneBy (eraseFirstMatch db "id" (.vInt id)) "id" (.vInt id) = none :=
      findOneBy_erase_of_unique hcount hsome
    have hdel2 := deleteOne_of_findOneBy_none hgone
    refine ⟨?_, hgone, ?_⟩
    · simp [handle_song_delete, noFaults, hdel]
    · simp [handle_song_delete, noFaults, hdel2]
  · intro seg hdig hcount hsome
    obtain ⟨d, hd⟩ := Option.isSome_iff_exists.mp hsome
    have hdel := deleteOne_of_findOneBy_some hd
    have hgone : findOneBy (eraseFirstMatch db "id" (.vInt (pyInt seg))) "id"
        (.vInt (pyInt seg)) = none :=
      findOneBy_erase_of_unique hcount hsome
    have hdel2 := deleteOne_of_findOneBy_none hgone
    refine ⟨?_, ?_⟩
    · simp [delete_song_legacy, noFaults, hdig, hdel]
    · simp [delete_song_legacy, noFaults, hdig, hdel2]

/-- C4 witness: concrete not-found and first/second delete on a
one-record collection. -/
theorem C4_witness :
    (handle_song_get [[("id", .vInt 5)]] 9 noFaults =
      { resp := .ok respNotFoundLower, db := [[("id", .vInt 5)]],
        trace := [.findOne "id" (.vInt 9)] } ∧
     handle_song_put [[("id", .vInt 5)]] 9 (some [("t", .vStr "x")]) noFaults =
      { resp := .ok respNotFoundLower, db := [[("id", .vInt 5)]],
        trace := [.findOneAndUpdate "id" (.vInt 9)] } ∧
     handle_song_delete [[("id", .vInt 5)]] 9 noFaults =
      { resp := .ok respNotFoundLower, db := [[("id", .vInt 5)]],
        trace := [.deleteOne "id" (.vInt 9)] }) ∧
    (handle_song_delete [[("id", .vInt 5)]] 5 noFaults =
      { resp := .ok respNoContent, db := [], trace := [.deleteOne "id" (.vInt 5)] } ∧
     findOneBy ([] : DB) "id" (.vInt 5) = none ∧
     handle_song_delete [] 5 noFaults =
      { resp := .ok respNotFoundLower, db := [], trace := [.deleteOne "id" (.vInt 5)] }) :=
  have h := C4_not_found_and_delete_idempotence [[("id", .vInt 5)]] [("t", .vStr "x")] (by simp)
  ⟨h.1 9 rfl, h.2.1 5 (by decide) (by decide)⟩

/-- C1: the three flexible-id routes follow the spec's resolution rule
`specResolveFlex` — an all-digit segment resolves by the integer `id`
field, any other segment by the native key — and a segment that parses as
neither yields not-found on GET and DELETE but bad-request on PUT, with
the collection untouched. -/
theorem C1_flexible_id_resolution (db : DB) (seg : String) (u : Doc) (hu : u ≠ []) :
    (get_song db seg noFaults).resp = .ok (
        match specResolveFlex db seg with
        | some d => { body := .vObj (parseJsonDoc d), status := 200 }
        | none => respNotFoundUpper) ∧
    (get_song db seg noFaults).db = db ∧
    (delete_song_legacy db seg noFaults).resp = .ok (
        match specResolveFlex db seg with
        | some _ => respNoContent
        | none => respNotFoundUpper) ∧
    (update_song_legacy db seg (some u) noFaults).resp = .ok (
        if pyIsDigit seg || isValidOid seg then
          match specResolveFlex db seg with
          | some d => { body := .vObj (parseJsonDoc (setFields d u)), status := 201 }
          | none => respNotFoundLower
        else respInvalidIdFormat) ∧
    (pyIsDigit seg = false → isValidOid seg = false →
      (delete_song_legacy db seg noFaults).db = db ∧
      (update_song_legacy db seg (some u) noFaults).db = db) := by
  have hune : u.isEmpty = false := isEmpty_false_of_ne_nil hu
  by_cases hdig : pyIsDigit seg = true
  · cases hfind : findOneBy db "id" (.vInt (pyInt seg)) with
    | some d =>
      have hdne : d.isEmpty = false := isEmpty_false_of_ne_nil (findOneBy_some_ne_nil hfind)
      have hdel := deleteOne_of_findOneBy_some hfind
      have hupd := findOneAndUpdate_of_findOneBy_some u hfind
      have hsne : (setFields d u).isEmpty = false :=
        isEmpty_false_of_ne_nil (setFields_ne_nil u d (findOneBy_some_ne_nil hfind))
      refine ⟨?_, ?_, ?_, ?_, ?_⟩ <;>
        simp [get_song, delete_song_legacy, update_song_legacy, specResolveFlex,
              noFaults, hdig, hfind, hdne, hdel, hupd, hsne, hune]
    | none =>
      have hdel := deleteOne_of_findOneBy_none hfind
      have hupd := findOneAndUpdate_of_findOneBy_none u hfind
      refine ⟨?_, ?_, ?_, ?_, ?_⟩ <;>
        simp [get_song, delete_song_legacy, update_song_legacy, specResolveFlex,
              noFaults, hdig, hfind, hdel, hupd, hune]
  · have hdig' : pyIsDigit seg = false := by simpa using hdig
    by_cases hoid : isValidOid seg = true
    · cases hfind : findOneBy db "_id" (.vOid seg) with
      | some d =>
        have hdne : d.isEmpty = false := isEmpty_false_of_ne_nil (findOneBy_some_ne_nil hfind)
        have hdel := deleteOne_of_findOneBy_some hfind
        have hupd := findOneAndUpdate_of_findOneBy_some u hfind
        have hsne : (setFields d u).isEmpty = false :=
          isEmpty_false_of_ne_nil (setFields_ne_nil u d (findOneBy_some_ne_nil hfind))
        refine ⟨?_, ?_, ?_, ?_, ?_⟩ <;>
          simp [get_song, delete_song_legacy, update_song_legacy, specResolveFlex,
                noFaults, hdig', hoid, hfind, hdne, hdel, hupd, hsne, hune]
      | none =>
        have hdel := deleteOne_of_findOneBy_none hfind
        have hupd := findOneAndUpdate_of_findOneBy_none u hfind
        refine ⟨?_, ?_, ?_, ?_, ?_⟩ <;>
          simp [get_song, delete_song_legacy, update_song_legacy, specResolveFlex,
                noFaults, hdig', hoid, hfind, hdel, hupd, hune]
    · have hoid' : isValidOid seg = false := by simpa using hoid
      refine ⟨?_, ?_, ?_, ?_, ?_⟩ <;>
        simp [get_song, delete_song_legacy, update_song_legacy, specResolveFlex,
              noFaults, hdig', hoid', hune]

/-- C1 witness: an unparseable segment ("x!") on a one-record collection:
GET and DELETE answer not-found, PUT answers bad-request, nothing
changes. -/
theorem C1_witness :
    (get_song [[("id", .vInt 1)]] "x!" noFaults).resp = .ok respNotFoundUpper ∧
    (get_song [[("id", .vInt 1)]] "x!" noFaults).db = [[("id", .vInt 1)]] ∧
    (delete_song_legacy [[("id", .vInt 1)]] "x!" noFaults).resp = .ok respNotFoundUpper ∧
    (update_song_legacy [[("id", .vInt 1)]] "x!" (some [("t", .vStr "y")]) noFaults).resp =
      .ok respInvalidIdFormat ∧
    (pyIsDigit "x!" = false → isValidOid "x!" = false →
      (delete_song_legacy [[("id", .vInt 1)]] "x!" noFaults).db = [[("id", .vInt 1)]] ∧
      (update_song_legacy [[("id", .vInt 1)]] "x!" (some [("t", .vStr "y")]) noFaults).db =
        [[("id", .vInt 1)]]) :=
  C1_flexible_id_resolution [[("id", .vInt 1)]] "x!" [("t", .vStr "y")] (by simp)

/-- C5 amended: the native primary key in every returned document is
rendered in JSON-serializable extended-JSON form — the object
`{"$oid": "<hex>"}` whose sole value is the key's hex representation as a
plain string — rather than as a raw ObjectId; list, get, create and
update bodies are all built from `parse_json`-rendered documents. -/
theorem C5_amended_extended_json_key_rendering (db : DB) (d u song : Doc) (h fresh : String)
    (id : Int)
    (hd : getField d "_id" = some (.vOid h))
    (hu : u ≠ [])
    (hfind : findOneBy db "id" (.vInt id) = some d)
    (hsong : song ≠ []) (hsid : getField song "id" = none) (hsoid : getField song "_id" = none)
    (hfresh : findOneBy db "_id" (.vOid fresh) = none) :
    getField (parseJsonDoc d) "_id" = some (.vObj [("$oid", .vStr h)]) ∧
    (get_all_songs db noFaults).resp = .ok { body := .vObj [("songs",
        .vArr (db.map fun x => Value.vObj (parseJsonDoc x)))], status := 200 } ∧
    (get_songs db noFaults).resp =
      .ok { body := .vArr (db.map fun x => Value.vObj (parseJsonDoc x)), status := 200 } ∧
    (handle_song_get db id noFaults).resp =
      .ok { body := .vObj (parseJsonDoc d), status := 200 } ∧
    (handle_song_put db id (some u) noFaults).resp =
      .ok { body := .vObj (parseJsonDoc (setFields d u)), status := 201 } ∧
    (create_song db (some song) fresh noFaults).resp =
      .ok { body := .vObj (parseJsonDoc (("_id", Value.vOid fresh) :: song)), status := 201 } ∧
    getField (parseJsonDoc (("_id", Value.vOid fresh) :: song)) "_id" =
      some (.vObj [("$oid", .vStr fresh)]) := by
  have hdne : d.isEmpty = false := isEmpty_false_of_ne_nil (findOneBy_some_ne_nil hfind)
  refine ⟨?_, rfl, rfl, ?_, ?_, ?_, ?_⟩
  · rw [parseJsonDoc, getField_parseJsonFields, hd]
    rfl
  · simp [handle_song_get, noFaults, hfind, hdne]
  · rw [put_success_outcome db id u d hu hfind]
  · rw [create_song_no_id_outcome db song fresh hsong hsid hsoid hfresh]
  · rw [parseJsonDoc, getField_parseJsonFields, getField_cons, if_pos rfl]
    rfl

/-- C5 amended witness: a concrete record with a native key, fetched and
updated. -/
theorem C5_amended_witness :
    getField (parseJsonDoc [("_id", Value.vOid oidA), ("id", .vInt 4)]) "_id" =
      some (.vObj [("$oid", .vStr oidA)]) ∧
    (get_all_songs [[("_id", .vOid oidA), ("id", .vInt 4)]] noFaults).resp =
      .ok { body := .vObj [("songs", .vArr [.vObj [("_id", .vObj [("$oid", .vStr oidA)]),
              ("id", .vInt 4)]])], status := 200 } ∧
    (get_songs [[("_id", .vOid oidA), ("id", .vInt 4)]] noFaults).resp =
      .ok { body := .vArr [.vObj [("_id", .vObj [("$oid", .vStr oidA)]), ("id", .vInt 4)]],
            status := 200 } ∧
    (handle_song_get [[("_id", .vOid oidA), ("id", .vInt 4)]] 4 noFaults).resp =
      .ok { body := .vObj [("_id", .vObj [("$oid", .vStr oidA)]), ("id", .vInt 4)],
            status := 200 } ∧
    (handle_song_put [[("_id", .vOid oidA), ("id", .vInt 4)]] 4
        (some [("title", .vStr "Z")]) noFaults).resp =
      .ok { body := .vObj [("_id", .vObj [("$oid", .vStr oidA)]), ("id", .vInt 4),
              ("title", .vStr "Z")], status := 201 } ∧
    (create_song [[("_id", .vOid oidA), ("id", .vInt 4)]] (some [("artist", .vStr "W")])
        oidB noFaults).resp =
      .ok { body := .vObj [("_id", .vObj [("$oid", .vStr oidB)]), ("artist", .vStr "W")],
            status := 201 } ∧
    getField (parseJsonDoc (("_id", Value.vOid oidB) :: [("artist", .vStr "W")])) "_id" =
      some (.vObj [("$oid", .vStr oidB)]) :=
  C5_amended_extended_json_key_rendering [[("_id", .vOid oidA), ("id", .vInt 4)]]
    [("_id", Value.vOid oidA), ("id", .vInt 4)] [("title", .vStr "Z")]
    [("artist", .vStr "W")] oidA oidB 4 rfl (by simp) rfl (by simp) rfl rfl rfl

/-! ### C6: fault containment -/

theorem count_songs_no_escape (db : DB) (f : Nat → Bool) :
    (count_songs db f).resp ≠ .error () := by
  unfold count_songs
  repeat' split
  all_goals exact fun hc => Except.noConfusion hc

theorem get_all_songs_no_escape (db : DB) (f : Nat → Bool) :
    (get_all_songs db f).resp ≠ .error () := by
  unfold get_all_songs
  repeat' split
  all_goals exact fun hc => Except.noConfusion hc

theorem get_songs_no_escape (db : DB) (f : Nat → Bool) :
    (get_songs db f).resp ≠ .error () := by
  unfold get_songs
  repeat' split
  all_goals exact fun hc => Except.noConfusion hc

theorem create_song_insert_no_escape (db : DB) (song : Doc) (fresh : String) (f : Nat → Bool)
    (i : Nat) (tr : List StoreOp) :
    (create_song_insert db song fresh f i tr).resp ≠ .error () := by
  unfold create_song_insert
  dsimp only
  repeat' split
  all_goals exact fun hc => Except.noConfusion hc

theorem create_song_no_escape (db : DB) (song? : Option Doc) (fresh : String) (f : Nat → Bool) :
    (create_song db song? fresh f).resp ≠ .error () := by
  unfold create_song
  repeat' split
  all_goals first
    | exact fun hc => Except.noConfusion hc
    | apply create_song_insert_no_escape

theorem handle_song_put_no_escape (db : DB) (id : Int) (song? : Option Doc) (f : Nat → Bool) :
    (handle_song_put db id song? f).resp ≠ .error () := by
  unfold handle_song_put
  dsimp only
  repeat' split
  all_goals exact fun hc => Except.noConfusion hc

theorem handle_song_delete_no_escape (db : DB) (id : Int) (f : Nat → Bool) :
    (handle_song_delete db id f).resp ≠ .error () := by
  unfold handle_song_delete
  dsimp only
  repeat' split
  all_goals exact fun hc => Except.noConfusion hc

theorem get_song_no_escape (db : DB) (seg : String) (f : Nat → Bool) :
    (get_song db seg f).resp ≠ .error () := by
  unfold get_song
  repeat' split
  all_goals exact fun hc => Except.noConfusion hc

theorem update_song_legacy_no_escape (db : DB) (seg : String) (song? : Option Doc)
    (f : Nat → Bool) : (update_song_legacy db seg song? f).resp ≠ .error () := by
  unfold update_song_legacy
  dsimp only
  repeat' split
  all_goals exact fun hc => Except.noConfusion hc

theorem delete_song_legacy_no_escape (db : DB) (seg : String) (f : Nat → Bool) :
    (delete_song_legacy db seg f).resp ≠ .error () := by
  unfold delete_song_legacy
  dsimp only
  repeat' split
  all_goals exact fun hc => Except.noConfusion hc

/-- C6 amended: every store interaction is wrapped EXCEPT the lookup of
the numeric-id GET. Under every fault schedule, every handler but
`handle_song_get` returns a structured response; a faulting call is
converted to the logged internal-error (500) response on the wrapped
primary handlers, but to 400 "Invalid song ID" on the flexible GET's
digit branch, to 404 on the flexible GET's and DELETE's native-key
branches, and to 400 "Invalid song ID format" on the flexible PUT's
native-key branch; `handle_song_get` propagates the raw exception. -/
theorem C6_amended_store_fault_containment (db : DB) (id : Int) (fresh : String)
    (song song2 u : Doc) (v : Value) (song? : Option Doc) (seg segd sego : String)
    (f g : Nat → Bool)
    (hf : f 0 = true)
    (hs1 : song ≠ []) (hsv : getField song "id" = some v)
    (hs2 : song2 ≠ []) (hsid2 : getField song2 "id" = none)
    (hu : u ≠ [])
    (hd : pyIsDigit segd = true)
    (ho1 : pyIsDigit sego = false) (ho2 : isValidOid sego = true) :
    (count_songs db g).resp ≠ .error () ∧
    (get_all_songs db g).resp ≠ .error () ∧
    (get_songs db g).resp ≠ .error () ∧
    (create_song db song? fresh g).resp ≠ .error () ∧
    (handle_song_put db id song? g).resp ≠ .error () ∧
    (handle_song_delete db id g).resp ≠ .error () ∧
    (get_song db seg g).resp ≠ .error () ∧
    (update_song_legacy db seg song? g).resp ≠ .error () ∧
    (delete_song_legacy db seg g).resp ≠ .error () ∧
    (count_songs db f).resp = .ok respInternal ∧
    (get_all_songs db f).resp = .ok respInternal ∧
    (get_songs db f).resp = .ok respInternal ∧
    (create_song db (some song) fresh f).resp = .ok respCreateFailed ∧
    (create_song db (some song2) fresh f).resp = .ok respCreateFailed ∧
    (handle_song_put db id (some u) f).resp = .ok respUpdateFailed ∧
    (handle_song_delete db id f).resp = .ok respDeleteFailed ∧
    (get_song db segd f).resp = .ok respInvalidId ∧
    (get_song db sego f).resp = .ok respNotFoundUpper ∧
    (update_song_legacy db segd (some u) f).resp = .ok respUpdateFailed ∧
    (update_song_legacy db sego (some u) f).resp = .ok respInvalidIdFormat ∧
    (delete_song_legacy db segd f).resp = .ok respDeleteFailed ∧
    (delete_song_legacy db sego f).resp = .ok respNotFoundUpper ∧
    (handle_song_get db id f).resp = .error () := by
  have hune : u.isEmpty = false := isEmpty_false_of_ne_nil hu
  refine ⟨count_songs_no_escape db g, get_all_songs_no_escape db g, get_songs_no_escape db g,
    create_song_no_escape db song? fresh g, handle_song_put_no_escape db id song? g,
    handle_song_delete_no_escape db id g, get_song_no_escape db seg g,
    update_song_legacy_no_escape db seg song? g, delete_song_legacy_no_escape db seg g,
    ?_, ?_, ?_, ?_, ?_, ?_, ?_, ?_, ?_, ?_, ?_, ?_, ?_, ?_⟩
  · simp [count_songs, hf]
  · simp [get_all_songs, hf]
  · simp [get_songs, hf]
  · simp [create_song, isEmpty_false_of_ne_nil hs1, hsv, hf]
  · simp [create_song, create_song_insert, isEmpty_false_of_ne_nil hs2, hsid2, hf]
  · simp [handle_song_put, hune, hf]
  · simp [handle_song_delete, hf]
  · simp [get_song, hd, hf]
  · simp [get_song, ho1, ho2, hf]
  · simp [update_song_legacy, hune, hd, hf]
  · simp [update_song_legacy, hune, ho1, ho2, hf]
  · simp [delete_song_legacy, hd, hf]
  · simp [delete_song_legacy, ho1, ho2, hf]
  · simp [handle_song_get, hf]

/-- C6 amended witness: concrete faulting schedules on a small state. -/
theorem C6_amended_witness :
    (count_songs [] (fun n => n % 2 == 0)).resp ≠ .error () ∧
    (get_all_songs [] (fun n => n % 2 == 0)).resp ≠ .error () ∧
    (get_songs [] (fun n => n % 2 == 0)).resp ≠ .error () ∧
    (create_song [] (some [("id", .vInt 1)]) oidA (fun n => n % 2 == 0)).resp ≠ .error () ∧
    (handle_song_put [] 1 (some [("id", .vInt 1)]) (fun n => n % 2 == 0)).resp ≠ .error () ∧
    (handle_song_delete [] 1 (fun n => n % 2 == 0)).resp ≠ .error () ∧
    (get_song [] "zz" (fun n => n % 2 == 0)).resp ≠ .error () ∧
    (update_song_legacy [] "zz" (some [("id", .vInt 1)]) (fun n => n % 2 == 0)).resp
      ≠ .error () ∧
    (delete_song_legacy [] "zz" (fun n => n % 2 == 0)).resp ≠ .error () ∧
    (count_songs [] (fun _ => true)).resp = .ok respInternal ∧
    (get_all_songs [] (fun _ => true)).resp = .ok respInternal ∧
    (get_songs [] (fun _ => true)).resp = .ok respInternal ∧
    (create_song [] (some [("id", .vInt 1)]) oidA (fun _ => true)).resp = .ok respCreateFailed ∧
    (create_song [] (some [("title", .vStr "t")]) oidA (fun _ => true)).resp =
      .ok respCreateFailed ∧
    (handle_song_put [] 1 (some [("title", .vStr "t")]) (fun _ => true)).resp =
      .ok respUpdateFailed ∧
    (handle_song_delete [] 1 (fun _ => true)).resp = .ok respDeleteFailed ∧
    (get_song [] "7" (fun _ => true)).resp = .ok respInvalidId ∧
    (get_song [] oidA (fun _ => true)).resp = .ok respNotFoundUpper ∧
    (update_song_legacy [] "7" (some [("title", .vStr "t")]) (fun _ => true)).resp =
      .ok respUpdateFailed ∧
    (update_song_legacy [] oidA (some [("title", .vStr "t")]) (fun _ => true)).resp =
      .ok respInvalidIdFormat ∧
    (delete_song_legacy [] "7" (fun _ => true)).resp = .ok respDeleteFailed ∧
    (delete_song_legacy [] oidA (fun _ => true)).resp = .ok respNotFoundUpper ∧
    (handle_song_get [] 1 (fun _ => true)).resp = .error () :=
  C6_amended_store_fault_containment [] 1 oidA [("id", .vInt 1)] [("title", .vStr "t")]
    [("title", .vStr "t")] (.vInt 1) (some [("id", .vInt 1)]) "zz" "7" oidA
    (fun _ => true) (fun n => n % 2 == 0) rfl (by simp) rfl (by simp) rfl (by simp)
    (by decide) (by decide) (by decide)

end Songs
